import Mathlib

/-!
Verification of the three-way structural merge engine of
`libs/scene/merge/ThreeWayMergeOperation.cpp`.

Scene-graph nodes (`INodePtr`) are represented by natural-number
identifiers; the root pointers of the three maps are identifiers too.
Collaborator code that lives outside this translation unit
(`ComparisonResult`, the `MergeOperationBase` action helpers,
`NodeUtils`, `string::iequals`) is modelled from the specification, as
flagged in the corresponding doc comments.  C++ exceptions of the
reconciliation pass are modelled with `Except String`; a failed
`assert` is modelled as its debug-build behaviour, an abort carrying
the literal assertion text (and in particular nothing else).
-/

namespace ThreeWayMerge

/-- `ComparisonResult::KeyValueDifference::Type` from the comparison
collaborator: a key was added, changed or removed relative to the base. -/
inductive KeyValueDiffType where
  | KeyValueAdded
  | KeyValueChanged
  | KeyValueRemoved
  deriving DecidableEq

/-- `ComparisonResult::KeyValueDifference`: one differing spawnarg,
carrying the key, the value and the kind of change. -/
structure KeyValueDifference where
  key : String
  value : String
  type : KeyValueDiffType
  deriving DecidableEq

/-- `ComparisonResult::PrimitiveDifference::Type`: a child primitive was
added or removed relative to the base. -/
inductive PrimitiveDiffType where
  | PrimitiveAdded
  | PrimitiveRemoved
  deriving DecidableEq

/-- `ComparisonResult::PrimitiveDifference`: one differing child
primitive, identified by its content fingerprint, carrying the node. -/
structure PrimitiveDifference where
  fingerprint : String
  node : Nat
  type : PrimitiveDiffType
  deriving DecidableEq

/-- `ComparisonResult::EntityDifference::Type`.  In the spec's naming:
`EntityMissingInBase` is `AddedRelativeToBase`, `EntityMissingInSource`
is `RemovedRelativeToBase`, and `EntityPresentButDifferent` is
`ModifiedRelativeToBase`. -/
inductive EntityDiffType where
  | EntityMissingInSource
  | EntityMissingInBase
  | EntityPresentButDifferent
  deriving DecidableEq

/-- `ComparisonResult::EntityDifference`: one entry per entity name of a
base-vs-other comparison, with the referenced node of the other graph,
the entity subtree fingerprint and the nested differences. -/
structure EntityDifference where
  entityName : String
  sourceNode : Nat
  sourceFingerprint : String
  type : EntityDiffType
  differingKeyValues : List KeyValueDifference
  differingChildren : List PrimitiveDifference
  deriving DecidableEq

/-- Modelled from the spec: `string::iequals` of the string library is
not under `src/`; the spec describes key identity as case-insensitive
string equality; lowercasing is applied per character. -/
def ieq (a b : String) : Bool :=
  decide (a.data.map Char.toLower = b.data.map Char.toLower)

/-- Modelled from the spec: `KeyValueDifference::operator==` is declared
by the comparison collaborator, which is not under `src/`.  The spec:
two instances are equal iff same key (case-insensitively), same kind,
and same value (value ignored when kind = Removed). -/
def kvDiffEquals (a b : KeyValueDifference) : Bool :=
  ieq a.key b.key && decide (a.type = b.type) &&
    (decide (a.type = KeyValueDiffType.KeyValueRemoved) || decide (a.value = b.value))

/-- `ThreeWayMergeOperation::FindTargetDiffByKey`: the first entry of the
target's key-value difference list whose key matches case-insensitively. -/
def FindTargetDiffByKey (targetKeyValueDiffs : List KeyValueDifference) (key : String) :
    Option KeyValueDifference :=
  targetKeyValueDiffs.find? (fun diff => ieq diff.key key)

/-- `ThreeWayMergeOperation::KeyValueDiffHasConflicts`: decides whether a
source and a target key-value difference on the same (case-insensitive)
key are in conflict.  (The C++ `assert` on key equality is a caller
precondition, carried as a hypothesis by the theorems below.) -/
def KeyValueDiffHasConflicts (sourceKeyValueDiff targetKeyValueDiff : KeyValueDifference) : Bool :=
  match targetKeyValueDiff.type with
  | KeyValueDiffType.KeyValueRemoved =>
      decide (targetKeyValueDiff.type ≠ sourceKeyValueDiff.type)
  | KeyValueDiffType.KeyValueAdded =>
      decide (sourceKeyValueDiff.type = KeyValueDiffType.KeyValueRemoved) ||
        decide (sourceKeyValueDiff.value ≠ targetKeyValueDiff.value)
  | KeyValueDiffType.KeyValueChanged =>
      decide (sourceKeyValueDiff.type = KeyValueDiffType.KeyValueRemoved) ||
        decide (sourceKeyValueDiff.value ≠ targetKeyValueDiff.value)

/-- The merge action model.  The concrete `MergeAction` subclasses are
declared by headers outside `src/`; the constructors and their
parameters follow the spec's §3 list (`key`, `value`, `targetEntity`
for the three key-value forms; nodes are identifiers). -/
inductive MergeAction where
  | AddEntityAction (sourceNode : Nat) (targetRoot : Nat)
  | RemoveEntityAction (node : Nat)
  | AddChildAction (node : Nat) (parent : Nat)
  | RemoveChildAction (node : Nat)
  | AddKeyValueAction (key : String) (value : String) (entity : Nat)
  | ChangeKeyValueAction (key : String) (value : String) (entity : Nat)
  | RemoveKeyValueAction (key : String) (value : String) (entity : Nat)
  | EntityConflictResolutionAction (conflictingEntity : Nat) (wrapped : MergeAction)
  | EntityKeyValueConflictResolutionAction (conflictingEntity : Nat)
      (sourceAction : MergeAction) (targetAction : MergeAction)
  deriving DecidableEq

/-- One entity of the target graph as the reconciliation pass observes
it: its name (via `NodeUtils::GetEntityName`), its node, and the
fingerprint→node map of its current child primitives (via
`NodeUtils::CollectPrimitiveFingerprints`). -/
structure TargetEntityRecord where
  name : String
  node : Nat
  childFingerprints : List (String × Nat)
  deriving DecidableEq

/-- Modelled from the spec: the target graph as seen through the
external collaborators `_targetRoot->foreachNode`,
`NodeUtils::GetEntityName` and `NodeUtils::CollectPrimitiveFingerprints`
(none under `src/`).  `targetEntityRecords` lists the target graph's
entities in traversal order. -/
structure MergeEnv where
  targetRoot : Nat
  targetEntityRecords : List TargetEntityRecord
  deriving DecidableEq

/-- Modelled from the spec: `NodeUtils::CollectPrimitiveFingerprints`
applied to a target entity node returns the fingerprint→node map of
that entity's current children (empty for an unknown node). -/
def collectPrimitiveFingerprints (env : MergeEnv) (node : Nat) : List (String × Nat) :=
  match env.targetEntityRecords.find? (fun r => decide (r.node = node)) with
  | some r => r.childFingerprints
  | none => []

/-- `targetChildren.count(fingerprint) != 0`: membership in the
fingerprint→node map. -/
def fpPresent (m : List (String × Nat)) (fp : String) : Bool :=
  m.any (fun p => decide (p.1 = fp))

/-- `targetChildren[fingerprint]`: the node mapped by the fingerprint
(only consulted when present; 0 stands for the default-constructed
node reference). -/
def fpGet (m : List (String × Nat)) (fp : String) : Nat :=
  ((m.find? (fun p => decide (p.1 = fp))).map Prod.snd).getD 0

/-- Modelled from the spec: `MergeOperationBase::createActionForKeyValueDiff`
is not under `src/`; the spec maps the source kind to the matching
key-value action against the given entity. -/
def createActionForKeyValueDiff (diff : KeyValueDifference) (entity : Nat) : MergeAction :=
  match diff.type with
  | KeyValueDiffType.KeyValueAdded => MergeAction.AddKeyValueAction diff.key diff.value entity
  | KeyValueDiffType.KeyValueChanged => MergeAction.ChangeKeyValueAction diff.key diff.value entity
  | KeyValueDiffType.KeyValueRemoved => MergeAction.RemoveKeyValueAction diff.key diff.value entity

/-- Modelled from the spec: `MergeOperationBase::addActionsForPrimitiveDiff`
is not under `src/`; per §4.3 a nested child difference is applied
individually against the looked-up target entity, an added primitive as
an `AddChildAction`, a removed one as a `RemoveChildAction`. -/
def addActionsForPrimitiveDiff (primitiveDiff : PrimitiveDifference) (entity : Nat) :
    List MergeAction :=
  match primitiveDiff.type with
  | PrimitiveDiffType.PrimitiveAdded => [MergeAction.AddChildAction primitiveDiff.node entity]
  | PrimitiveDiffType.PrimitiveRemoved => [MergeAction.RemoveChildAction primitiveDiff.node]

/-- The per-primitive body of the first loop of
`processEntityModification` (lines 84–108): an added primitive is added
unless its fingerprint is already among the target entity's children, a
removed primitive is removed only if its fingerprint is still there. -/
def primitiveMergeActions (targetChildren : List (String × Nat)) (targetEntityNode : Nat)
    (primitiveDiff : PrimitiveDifference) : List MergeAction :=
  let primitivePresentInTargetMap := fpPresent targetChildren primitiveDiff.fingerprint
  match primitiveDiff.type with
  | PrimitiveDiffType.PrimitiveAdded =>
      if !primitivePresentInTargetMap then
        [MergeAction.AddChildAction primitiveDiff.node targetEntityNode]
      else []
  | PrimitiveDiffType.PrimitiveRemoved =>
      if primitivePresentInTargetMap then
        [MergeAction.RemoveChildAction (fpGet targetChildren primitiveDiff.fingerprint)]
      else []

/-- The per-key-value body of the second loop of
`processEntityModification` (lines 112–144): accept the source change
when the target did not touch the key, skip value-equal convergent
changes, accept non-conflicting changes, and wrap conflicting ones in
an `EntityKeyValueConflictResolutionAction`. -/
def kvMergeActions (targetDiff : EntityDifference) (sourceKeyValueDiff : KeyValueDifference) :
    List MergeAction :=
  match FindTargetDiffByKey targetDiff.differingKeyValues sourceKeyValueDiff.key with
  | none => [createActionForKeyValueDiff sourceKeyValueDiff targetDiff.sourceNode]
  | some targetKeyValueDiff =>
      if kvDiffEquals sourceKeyValueDiff targetKeyValueDiff then []
      else if !KeyValueDiffHasConflicts sourceKeyValueDiff targetKeyValueDiff then
        [createActionForKeyValueDiff sourceKeyValueDiff targetDiff.sourceNode]
      else
        [MergeAction.EntityKeyValueConflictResolutionAction targetDiff.sourceNode
          (createActionForKeyValueDiff sourceKeyValueDiff targetDiff.sourceNode)
          (createActionForKeyValueDiff targetKeyValueDiff targetDiff.sourceNode)]

/-- `ThreeWayMergeOperation::processEntityModification` (lines 57–145):
reconcile a source-side modification with the same-named target
difference.  The initial `assert` on the source kind is modelled as an
abort carrying the assertion text; the two special target kinds yield
the fatal mismatch and the entity-level conflict; otherwise the nested
primitive and key-value differences are reconciled in that order. -/
def processEntityModification (env : MergeEnv)
    (sourceDiff targetDiff : EntityDifference) : Except String (List MergeAction) :=
  if sourceDiff.type ≠ EntityDiffType.EntityPresentButDifferent then
    Except.error "Assertion failed: sourceDiff.type == Type::EntityPresentButDifferent"
  else if targetDiff.type = EntityDiffType.EntityMissingInBase then
    Except.error ("Entity " ++ sourceDiff.entityName ++
      " is marked as modified in source, but as added in the target.")
  else if targetDiff.type = EntityDiffType.EntityMissingInSource then
    Except.ok [MergeAction.EntityConflictResolutionAction targetDiff.sourceNode
      (MergeAction.AddEntityAction sourceDiff.sourceNode env.targetRoot)]
  else
    let targetChildren := collectPrimitiveFingerprints env targetDiff.sourceNode
    Except.ok
      (sourceDiff.differingChildren.flatMap
          (primitiveMergeActions targetChildren targetDiff.sourceNode) ++
        sourceDiff.differingKeyValues.flatMap (kvMergeActions targetDiff))

/-- `_sourceDifferences[it->entityName] = it` on the by-name difference
dictionary: replace the entry of an already-present name, append a new
name.  (The dictionary's type is declared in the header, which is not
under `src/`; modelled from the spec, which fixes iteration order to
the comparison result's own order.) -/
def upsertDiff (dict : List EntityDifference) (d : EntityDifference) : List EntityDifference :=
  if dict.any (fun e => decide (e.entityName = d.entityName)) then
    dict.map (fun e => if e.entityName = d.entityName then d else e)
  else dict ++ [d]

/-- The by-name entity difference dictionary built in
`processEntityDifferences` (lines 150–159). -/
def buildDiffDict (diffs : List EntityDifference) : List EntityDifference :=
  diffs.foldl upsertDiff []

/-- The name→node index `_targetEntities` built over the target graph
(lines 161–170): `emplace` keeps the first node seen for a name. -/
def buildTargetEntities (records : List TargetEntityRecord) : List (String × Nat) :=
  records.foldl
    (fun acc r =>
      if acc.any (fun p => decide (p.1 = r.name)) then acc else acc ++ [(r.name, r.node)])
    []

/-- `ThreeWayMergeOperation::findTargetEntityByName` (lines 296–300):
look the name up in `_targetEntities`, empty reference when absent. -/
def findTargetEntityByName (targetEntities : List (String × Nat)) (name : String) : Option Nat :=
  (targetEntities.find? (fun p => decide (p.1 = name))).map Prod.snd

/-- The branch of the reconciliation loop for a source difference with
no same-named target difference (lines 178–213): apply the source
difference directly.  The `assert(entityToRemove)` /
`assert(entityToModify)` checks are modelled as aborts carrying the
literal assertion text. -/
def processSourceOnly (env : MergeEnv) (targetEntities : List (String × Nat))
    (sourceDiff : EntityDifference) : Except String (List MergeAction) :=
  match sourceDiff.type with
  | EntityDiffType.EntityMissingInSource =>
      match findTargetEntityByName targetEntities sourceDiff.entityName with
      | some entityToRemove => Except.ok [MergeAction.RemoveEntityAction entityToRemove]
      | none => Except.error "Assertion failed: entityToRemove"
  | EntityDiffType.EntityMissingInBase =>
      Except.ok [MergeAction.AddEntityAction sourceDiff.sourceNode env.targetRoot]
  | EntityDiffType.EntityPresentButDifferent =>
      match findTargetEntityByName targetEntities sourceDiff.entityName with
      | none => Except.error "Assertion failed: entityToModify"
      | some entityToModify =>
          Except.ok
            (sourceDiff.differingKeyValues.flatMap
                (fun kv => [createActionForKeyValueDiff kv entityToModify]) ++
              sourceDiff.differingChildren.flatMap
                (fun pd => addActionsForPrimitiveDiff pd entityToModify))

/-- The branch of the reconciliation loop for a source difference with a
same-named target difference (lines 215–261): the compatibility table
over the two kinds — fatal mismatches, convergent adds/removals, the
remove-vs-modify conflict, and descent into
`processEntityModification`. -/
def processBothPresent (env : MergeEnv)
    (sourceDiff targetDiff : EntityDifference) : Except String (List MergeAction) :=
  match sourceDiff.type with
  | EntityDiffType.EntityMissingInBase =>
      if targetDiff.type = EntityDiffType.EntityMissingInSource ∨
          targetDiff.type = EntityDiffType.EntityPresentButDifferent then
        Except.error ("Error " ++ sourceDiff.entityName ++
          " was marked as added in source, but removed/modified in target")
      else if sourceDiff.sourceFingerprint ≠ targetDiff.sourceFingerprint then
        Except.ok [MergeAction.AddEntityAction sourceDiff.sourceNode env.targetRoot]
      else Except.ok []
  | EntityDiffType.EntityMissingInSource =>
      if targetDiff.type = EntityDiffType.EntityMissingInBase then
        Except.error ("Error " ++ sourceDiff.entityName ++
          " was marked as removed in source, but as added in target")
      else if targetDiff.type = EntityDiffType.EntityMissingInSource then
        Except.ok []
      else
        Except.ok [MergeAction.EntityConflictResolutionAction targetDiff.sourceNode
          (MergeAction.RemoveEntityAction targetDiff.sourceNode)]
  | EntityDiffType.EntityPresentButDifferent =>
      processEntityModification env sourceDiff targetDiff

/-- One iteration of the reconciliation loop (lines 174–262): dispatch
on whether the entity name also occurs in the target differences. -/
def processOneSource (env : MergeEnv) (targetDict : List EntityDifference)
    (targetEntities : List (String × Nat)) (sourceDiff : EntityDifference) :
    Except String (List MergeAction) :=
  match targetDict.find? (fun t => decide (t.entityName = sourceDiff.entityName)) with
  | none => processSourceOnly env targetEntities sourceDiff
  | some targetDiff => processBothPresent env sourceDiff targetDiff

/-- The reconciliation loop over the source difference dictionary:
actions accumulate in emission order, a thrown error discards the
pass. -/
def processLoop (env : MergeEnv) (targetDict : List EntityDifference)
    (targetEntities : List (String × Nat)) :
    List EntityDifference → Except String (List MergeAction)
  | [] => Except.ok []
  | sourceDiff :: rest =>
      match processOneSource env targetDict targetEntities sourceDiff with
      | Except.error e => Except.error e
      | Except.ok acts =>
          match processLoop env targetDict targetEntities rest with
          | Except.error e => Except.error e
          | Except.ok restActs => Except.ok (acts ++ restActs)

/-- `ThreeWayMergeOperation::processEntityDifferences` (lines 147–268):
build the two by-name dictionaries and the target entity index, then
run the reconciliation loop over the source differences. -/
def processEntityDifferences (env : MergeEnv)
    (sourceDiffs targetDiffs : List EntityDifference) : Except String (List MergeAction) :=
  processLoop env (buildDiffDict targetDiffs) (buildTargetEntities env.targetEntityRecords)
    (buildDiffDict sourceDiffs)

/-- Modelled from the spec: `ComparisonResult` is an external
collaborator (not under `src/`); it exposes the base root, the other
graph's root, and the ordered entity difference list. -/
structure ComparisonResult where
  baseRootNode : Nat
  sourceRootNode : Nat
  differingEntities : List EntityDifference
  deriving DecidableEq

/-- The state of a constructed `ThreeWayMergeOperation`: the three root
nodes and the accumulated action list. -/
structure ThreeWayMergeOperationState where
  baseRoot : Nat
  sourceRoot : Nat
  targetRoot : Nat
  actions : List MergeAction
  deriving DecidableEq

/-- `ThreeWayMergeOperation::CreateFromComparisonResults` (lines
270–284): reject mismatched base roots outright, otherwise build the
operation over the two roots and run the reconciliation pass.
`targetRecords` carries the contents of the target graph (the second
comparison's other graph). -/
def CreateFromComparisonResults (targetRecords : List TargetEntityRecord)
    (baseToSource baseToTarget : ComparisonResult) :
    Except String ThreeWayMergeOperationState :=
  if baseToSource.baseRootNode ≠ baseToTarget.baseRootNode then
    Except.error "The base scene of the two comparison results must be the same"
  else
    match processEntityDifferences
        { targetRoot := baseToTarget.sourceRootNode, targetEntityRecords := targetRecords }
        baseToSource.differingEntities baseToTarget.differingEntities with
    | Except.error e => Except.error e
    | Except.ok acts =>
        Except.ok
          { baseRoot := baseToSource.baseRootNode, sourceRoot := baseToSource.sourceRootNode,
            targetRoot := baseToTarget.sourceRootNode, actions := acts }

/-- The four (source kind, target kind) pairings the compatibility
table marks fatal: an add paired with a removal/modification on the
other side in either orientation. -/
def isFatalPair : EntityDiffType → EntityDiffType → Bool
  | EntityDiffType.EntityMissingInBase, EntityDiffType.EntityMissingInSource => true
  | EntityDiffType.EntityMissingInBase, EntityDiffType.EntityPresentButDifferent => true
  | EntityDiffType.EntityMissingInSource, EntityDiffType.EntityMissingInBase => true
  | EntityDiffType.EntityPresentButDifferent, EntityDiffType.EntityMissingInBase => true
  | _, _ => false

/-- Example target graph of the concrete witness instances below: no
entities at all under root 9. -/
def exEnvEmpty : MergeEnv := ⟨9, []⟩

/-- Example difference: entity `e` added relative to the base (node 1,
fingerprint `f`). -/
def exAddedSrc : EntityDifference :=
  ⟨"e", 1, "f", EntityDiffType.EntityMissingInBase, [], []⟩

/-- Example difference: entity `e` removed relative to the base on the
target side. -/
def exRemovedTgt : EntityDifference :=
  ⟨"e", 2, "g", EntityDiffType.EntityMissingInSource, [], []⟩

/-- Example difference: entity `e` added on the target side with the
same fingerprint `f` as `exAddedSrc`. -/
def exAddedTgtSameFp : EntityDifference :=
  ⟨"e", 2, "f", EntityDiffType.EntityMissingInBase, [], []⟩

/-- Example comparison results for the base-root precondition check. -/
def exCmpA : ComparisonResult := ⟨1, 2, []⟩

/-- Example comparison whose base root differs from `exCmpA`'s. -/
def exCmpB : ComparisonResult := ⟨3, 4, []⟩

/-- Example comparison sharing `exCmpA`'s base root. -/
def exCmpC : ComparisonResult := ⟨1, 4, []⟩

/-- Example difference: entity `setting_1` removed relative to the base,
with no counterpart in the target graph. -/
def exRemovedOrphan : EntityDifference :=
  ⟨"setting_1", 1, "f", EntityDiffType.EntityMissingInSource, [], []⟩

/-- Example difference: like `exRemovedOrphan` but under a different
entity name. -/
def exRemovedOrphanOther : EntityDifference :=
  ⟨"other_name", 1, "f", EntityDiffType.EntityMissingInSource, [], []⟩

/-- Example target graph with one entity `door` (node 11) whose current
children carry fingerprints `fpA` and `fpB`. -/
def exEnvDoor : MergeEnv := ⟨9, [⟨"door", 11, [("fpA", 21), ("fpB", 22)]⟩]⟩

/-- Example primitive difference: a primitive with fresh fingerprint
`fpC` added in the source. -/
def exPdAdd : PrimitiveDifference := ⟨"fpC", 61, PrimitiveDiffType.PrimitiveAdded⟩

/-- Example difference: entity `door` modified in the source, adding the
`fpC` primitive. -/
def exModSrc : EntityDifference :=
  ⟨"door", 51, "sf", EntityDiffType.EntityPresentButDifferent, [], [exPdAdd]⟩

/-- Example difference: entity `door` modified in the target (no nested
differences). -/
def exModTgt : EntityDifference :=
  ⟨"door", 11, "tf", EntityDiffType.EntityPresentButDifferent, [], []⟩

/-- Example difference: a second entity `q` added relative to the base. -/
def exAddedSrc2 : EntityDifference :=
  ⟨"q", 3, "h", EntityDiffType.EntityMissingInBase, [], []⟩

/-- Whether an action is an unwrapped key-value action (add, change or
remove) on the given case-insensitive key. -/
def isKeyValueActionForKey (k : String) : MergeAction → Bool
  | MergeAction.AddKeyValueAction key _ _ => ieq key k
  | MergeAction.ChangeKeyValueAction key _ _ => ieq key k
  | MergeAction.RemoveKeyValueAction key _ _ => ieq key k
  | _ => false

/-- Example key-value difference: source changes `origin` to `1 0 0`. -/
def exKvSrc : KeyValueDifference := ⟨"origin", "1 0 0", KeyValueDiffType.KeyValueChanged⟩

/-- Example key-value difference: target changes `Origin` (same key,
case-insensitively) to `2 0 0`. -/
def exKvTgt : KeyValueDifference := ⟨"Origin", "2 0 0", KeyValueDiffType.KeyValueChanged⟩

/-- Example difference: entity `door` modified in the source with the
conflicting `origin` change. -/
def exConfSrc : EntityDifference :=
  ⟨"door", 51, "sf", EntityDiffType.EntityPresentButDifferent, [exKvSrc], []⟩

/-- Example difference: entity `door` modified in the target with the
conflicting `Origin` change. -/
def exConfTgt : EntityDifference :=
  ⟨"door", 11, "tf", EntityDiffType.EntityPresentButDifferent, [exKvTgt], []⟩

/-- Example difference for the identical-results round trip: `door`
modified with a convergent key change, a child addition whose
fingerprint `fpA` is already among `door`'s children, and a child
removal whose fingerprint `fpZ` is already gone. -/
def exC6Mod : EntityDifference :=
  ⟨"door", 11, "tf", EntityDiffType.EntityPresentButDifferent,
    [⟨"origin", "1 2 3", KeyValueDiffType.KeyValueChanged⟩],
    [⟨"fpA", 21, PrimitiveDiffType.PrimitiveAdded⟩,
      ⟨"fpZ", 99, PrimitiveDiffType.PrimitiveRemoved⟩]⟩

/-- C2: on a shared case-insensitive key, `KeyValueDiffHasConflicts`
returns true exactly when the target removed the key while the source
did not, or the target added/changed it while the source removed it or
the two values differ; all other pairings (both removed, or equal-value
add/change) are conflict-free. -/
theorem C2_keyValueConflict_table (s t : KeyValueDifference)
    (hkey : ieq s.key t.key = true) :
    KeyValueDiffHasConflicts s t = true ↔
      ((t.type = KeyValueDiffType.KeyValueRemoved ∧ s.type ≠ KeyValueDiffType.KeyValueRemoved) ∨
        ((t.type = KeyValueDiffType.KeyValueAdded ∨ t.type = KeyValueDiffType.KeyValueChanged) ∧
          (s.type = KeyValueDiffType.KeyValueRemoved ∨ s.value ≠ t.value))) := by
  cases hs : s.type <;> cases ht : t.type <;>
    simp [KeyValueDiffHasConflicts, hs, ht]

/-- C2 witness: the table evaluated at a concrete conflicting pair
(source changes the value, target changes it to something else). -/
theorem C2_keyValueConflict_table_witness :
    KeyValueDiffHasConflicts
        { key := "origin", value := "1 0 0", type := KeyValueDiffType.KeyValueChanged }
        { key := "Origin", value := "2 0 0", type := KeyValueDiffType.KeyValueChanged } = true ↔
      (({ key := "Origin", value := "2 0 0", type := KeyValueDiffType.KeyValueChanged } :
            KeyValueDifference).type = KeyValueDiffType.KeyValueRemoved ∧
          ({ key := "origin", value := "1 0 0", type := KeyValueDiffType.KeyValueChanged } :
            KeyValueDifference).type ≠ KeyValueDiffType.KeyValueRemoved) ∨
        ((({ key := "Origin", value := "2 0 0", type := KeyValueDiffType.KeyValueChanged } :
              KeyValueDifference).type = KeyValueDiffType.KeyValueAdded ∨
            ({ key := "Origin", value := "2 0 0", type := KeyValueDiffType.KeyValueChanged } :
              KeyValueDifference).type = KeyValueDiffType.KeyValueChanged) ∧
          (({ key := "origin", value := "1 0 0", type := KeyValueDiffType.KeyValueChanged } :
              KeyValueDifference).type = KeyValueDiffType.KeyValueRemoved ∨
            ({ key := "origin", value := "1 0 0", type := KeyValueDiffType.KeyValueChanged } :
              KeyValueDifference).value ≠
              ({ key := "Origin", value := "2 0 0", type := KeyValueDiffType.KeyValueChanged } :
                KeyValueDifference).value)) :=
  C2_keyValueConflict_table
    { key := "origin", value := "1 0 0", type := KeyValueDiffType.KeyValueChanged }
    { key := "Origin", value := "2 0 0", type := KeyValueDiffType.KeyValueChanged }
    (by decide)

/-- C10: on a shared case-insensitive key the conflict test is
symmetric: swapping the source and target difference gives the same
boolean. -/
theorem C10_keyValueConflict_symm (a b : KeyValueDifference)
    (hkey : ieq a.key b.key = true) :
    KeyValueDiffHasConflicts a b = KeyValueDiffHasConflicts b a := by
  cases ha : a.type <;> cases hb : b.type <;>
    by_cases hv : a.value = b.value <;>
      simp [KeyValueDiffHasConflicts, ha, hb, hv, Ne, eq_comm]

/-- C10 witness: symmetry evaluated at a concrete removed-vs-changed
pair. -/
theorem C10_keyValueConflict_symm_witness :
    KeyValueDiffHasConflicts
        { key := "target", value := "", type := KeyValueDiffType.KeyValueRemoved }
        { key := "TARGET", value := "t1", type := KeyValueDiffType.KeyValueChanged } =
      KeyValueDiffHasConflicts
        { key := "TARGET", value := "t1", type := KeyValueDiffType.KeyValueChanged }
        { key := "target", value := "", type := KeyValueDiffType.KeyValueRemoved } :=
  C10_keyValueConflict_symm
    { key := "target", value := "", type := KeyValueDiffType.KeyValueRemoved }
    { key := "TARGET", value := "t1", type := KeyValueDiffType.KeyValueChanged }
    (by decide)

theorem processLoop_error_of_mem (env : MergeEnv) (targetDict : List EntityDifference)
    (targetEntities : List (String × Nat)) (L : List EntityDifference) (sd : EntityDifference)
    (hmem : sd ∈ L)
    (herr : ∃ e, processOneSource env targetDict targetEntities sd = Except.error e) :
    ∃ msg, processLoop env targetDict targetEntities L = Except.error msg := by
  induction L with
  | nil => cases hmem
  | cons hd tl ih =>
      cases hmem with
      | head =>
          obtain ⟨e, he⟩ := herr
          exact ⟨e, by simp [processLoop, he]⟩
      | tail _ hmem' =>
          obtain ⟨msg, hm⟩ := ih hmem'
          cases hhd : processOneSource env targetDict targetEntities hd with
          | error e => exact ⟨e, by simp [processLoop, hhd]⟩
          | ok acts => exact ⟨msg, by simp [processLoop, hhd, hm]⟩

theorem processBothPresent_fatal (env : MergeEnv) (sd td : EntityDifference)
    (hfatal : isFatalPair sd.type td.type = true) :
    ∃ pre post, processBothPresent env sd td = Except.error (pre ++ sd.entityName ++ post) := by
  cases hs : sd.type <;> cases ht : td.type <;> simp [isFatalPair, hs, ht] at hfatal
  · exact ⟨"Error ", " was marked as removed in source, but as added in target",
      by simp [processBothPresent, hs, ht]⟩
  · exact ⟨"Error ", " was marked as added in source, but removed/modified in target",
      by simp [processBothPresent, hs, ht]⟩
  · exact ⟨"Error ", " was marked as added in source, but removed/modified in target",
      by simp [processBothPresent, hs, ht]⟩
  · exact ⟨"Entity ", " is marked as modified in source, but as added in the target.",
      by simp [processBothPresent, processEntityModification, hs, ht]⟩

/-- C1: whenever the source and target difference dictionaries hold a
same-named pair whose kinds form one of the four fatal pairings
(added/removed, added/modified, removed/added, modified/added in the
spec's naming), the pair is reconciled to an unrecoverable error whose
message embeds the offending entity name, and the whole merge operation
reports an error rather than silently handling the pairing. -/
theorem C1_fatal_pairs_raise_error (env : MergeEnv)
    (sourceDiffs targetDiffs : List EntityDifference) (sd td : EntityDifference)
    (hs : sd ∈ buildDiffDict sourceDiffs)
    (ht : (buildDiffDict targetDiffs).find?
        (fun t => decide (t.entityName = sd.entityName)) = some td)
    (hfatal : isFatalPair sd.type td.type = true) :
    (∃ pre post, processBothPresent env sd td = Except.error (pre ++ sd.entityName ++ post)) ∧
      ∃ msg, processEntityDifferences env sourceDiffs targetDiffs = Except.error msg := by
  have h1 := processBothPresent_fatal env sd td hfatal
  refine ⟨h1, ?_⟩
  obtain ⟨pre, post, he⟩ := h1
  simp only [processEntityDifferences]
  exact processLoop_error_of_mem env (buildDiffDict targetDiffs)
    (buildTargetEntities env.targetEntityRecords) (buildDiffDict sourceDiffs) sd hs
    ⟨pre ++ sd.entityName ++ post, by simp [processOneSource, ht, he]⟩


/-- C1 witness: one concrete fatal pairing (entity `e` added in the
source comparison, removed in the target comparison). -/
theorem C1_fatal_pairs_raise_error_witness :
    exAddedSrc ∈ buildDiffDict [exAddedSrc] ∧
      (buildDiffDict [exRemovedTgt]).find?
          (fun t => decide (t.entityName = exAddedSrc.entityName)) = some exRemovedTgt ∧
      isFatalPair exAddedSrc.type exRemovedTgt.type = true ∧
      ((∃ pre post, processBothPresent exEnvEmpty exAddedSrc exRemovedTgt =
            Except.error (pre ++ exAddedSrc.entityName ++ post)) ∧
        ∃ msg, processEntityDifferences exEnvEmpty [exAddedSrc] [exRemovedTgt] =
          Except.error msg) :=
  ⟨by decide, by decide, by decide,
    C1_fatal_pairs_raise_error exEnvEmpty [exAddedSrc] [exRemovedTgt] exAddedSrc exRemovedTgt
      (by decide) (by decide) (by decide)⟩

/-- C4: when both comparisons mark the same entity name as added
relative to the base, reconciling the pair emits nothing if the two
entity fingerprints agree, and exactly one `AddEntityAction` re-adding
the source node under the target root if they differ (the source's
version wins on convergent-but-different adds). -/
theorem C4_convergent_add (env : MergeEnv) (sd td : EntityDifference)
    (hname : sd.entityName = td.entityName)
    (hs : sd.type = EntityDiffType.EntityMissingInBase)
    (ht : td.type = EntityDiffType.EntityMissingInBase) :
    processBothPresent env sd td =
      Except.ok (if sd.sourceFingerprint = td.sourceFingerprint then []
        else [MergeAction.AddEntityAction sd.sourceNode env.targetRoot]) := by
  by_cases hf : sd.sourceFingerprint = td.sourceFingerprint <;>
    simp [processBothPresent, hs, ht, hf]

/-- C4 witness: a concrete convergent add with equal fingerprints. -/
theorem C4_convergent_add_witness :
    exAddedSrc.entityName = exAddedTgtSameFp.entityName ∧
      processBothPresent exEnvEmpty exAddedSrc exAddedTgtSameFp =
        Except.ok
          (if exAddedSrc.sourceFingerprint = exAddedTgtSameFp.sourceFingerprint then []
            else [MergeAction.AddEntityAction exAddedSrc.sourceNode exEnvEmpty.targetRoot]) :=
  ⟨by decide,
    C4_convergent_add exEnvEmpty exAddedSrc exAddedTgtSameFp (by decide) (by decide) (by decide)⟩

/-- C7: construction from two comparison results fails outright with
the precondition error when the two base roots differ — no merge
operation or action list is produced — and when the base roots agree it
proceeds into the reconciliation pass, whose outcome (action list or
reconciliation error) is exactly what the operation reports. -/
theorem C7_mismatched_base_roots (targetRecords : List TargetEntityRecord)
    (baseToSource baseToTarget : ComparisonResult) :
    (baseToSource.baseRootNode ≠ baseToTarget.baseRootNode →
        CreateFromComparisonResults targetRecords baseToSource baseToTarget =
          Except.error "The base scene of the two comparison results must be the same") ∧
      (baseToSource.baseRootNode = baseToTarget.baseRootNode →
        CreateFromComparisonResults targetRecords baseToSource baseToTarget =
          (processEntityDifferences
              { targetRoot := baseToTarget.sourceRootNode, targetEntityRecords := targetRecords }
              baseToSource.differingEntities baseToTarget.differingEntities).map
            (fun acts =>
              { baseRoot := baseToSource.baseRootNode,
                sourceRoot := baseToSource.sourceRootNode,
                targetRoot := baseToTarget.sourceRootNode, actions := acts })) := by
  constructor
  · intro hne
    simp [CreateFromComparisonResults, hne]
  · intro heq
    cases hres : processEntityDifferences
        { targetRoot := baseToTarget.sourceRootNode, targetEntityRecords := targetRecords }
        baseToSource.differingEntities baseToTarget.differingEntities with
    | error e => simp [CreateFromComparisonResults, heq, hres, Except.map]
    | ok acts => simp [CreateFromComparisonResults, heq, hres, Except.map]

/-- C7 witness: a concrete mismatched-roots pair is rejected, and a
concrete matching-roots pair runs the (empty) reconciliation. -/
theorem C7_mismatched_base_roots_witness :
    exCmpA.baseRootNode ≠ exCmpB.baseRootNode ∧
      CreateFromComparisonResults [] exCmpA exCmpB =
        Except.error "The base scene of the two comparison results must be the same" ∧
      (exCmpA.baseRootNode = exCmpC.baseRootNode ∧
        CreateFromComparisonResults [] exCmpA exCmpC =
          (processEntityDifferences
              { targetRoot := exCmpC.sourceRootNode, targetEntityRecords := [] }
              exCmpA.differingEntities exCmpC.differingEntities).map
            (fun acts =>
              { baseRoot := exCmpA.baseRootNode, sourceRoot := exCmpA.sourceRootNode,
                targetRoot := exCmpC.sourceRootNode, actions := acts })) :=
  ⟨by decide, (C7_mismatched_base_roots [] exCmpA exCmpB).1 (by decide),
    by decide, (C7_mismatched_base_roots [] exCmpA exCmpC).2 (by decide)⟩

theorem flatMap_decomp {α β : Type} (f : α → List β) (xs : List α) (x : α) (hx : x ∈ xs) :
    ∃ a b, xs.flatMap f = a ++ f x ++ b := by
  induction xs with
  | nil => cases hx
  | cons hd tl ih =>
      cases hx with
      | head => exact ⟨[], tl.flatMap f, by simp⟩
      | tail _ hx2 =>
          obtain ⟨a, b, hab⟩ := ih hx2
          exact ⟨f hd ++ a, b, by simp [hab]⟩

/-- C5: when an entity is modified on both sides, every source
child-primitive difference contributes a contiguous slice of the
emitted actions; for an added primitive that slice is exactly one
`AddChildAction` precisely when the fingerprint is not among the target
entity's current children, and for a removed primitive it is exactly
one `RemoveChildAction` (on the target's node for that fingerprint)
precisely when the fingerprint is still present there. -/
theorem C5_primitive_reconciliation (env : MergeEnv) (sd td : EntityDifference)
    (pd : PrimitiveDifference)
    (hsd : sd.type = EntityDiffType.EntityPresentButDifferent)
    (htd : td.type = EntityDiffType.EntityPresentButDifferent)
    (hmem : pd ∈ sd.differingChildren) :
    ∃ acts, processEntityModification env sd td = Except.ok acts ∧
      (∃ a b, acts = a ++ primitiveMergeActions
          (collectPrimitiveFingerprints env td.sourceNode) td.sourceNode pd ++ b) ∧
      (pd.type = PrimitiveDiffType.PrimitiveAdded →
        (primitiveMergeActions (collectPrimitiveFingerprints env td.sourceNode) td.sourceNode pd =
            [MergeAction.AddChildAction pd.node td.sourceNode] ↔
          fpPresent (collectPrimitiveFingerprints env td.sourceNode) pd.fingerprint = false)) ∧
      (pd.type = PrimitiveDiffType.PrimitiveRemoved →
        (primitiveMergeActions (collectPrimitiveFingerprints env td.sourceNode) td.sourceNode pd =
            [MergeAction.RemoveChildAction
              (fpGet (collectPrimitiveFingerprints env td.sourceNode) pd.fingerprint)] ↔
          fpPresent (collectPrimitiveFingerprints env td.sourceNode) pd.fingerprint = true)) := by
  refine ⟨sd.differingChildren.flatMap
      (primitiveMergeActions (collectPrimitiveFingerprints env td.sourceNode) td.sourceNode) ++
      sd.differingKeyValues.flatMap (kvMergeActions td), ?_, ?_, ?_, ?_⟩
  · simp [processEntityModification, hsd, htd]
  · obtain ⟨a, b, hab⟩ := flatMap_decomp
      (primitiveMergeActions (collectPrimitiveFingerprints env td.sourceNode) td.sourceNode)
      sd.differingChildren pd hmem
    exact ⟨a, b ++ sd.differingKeyValues.flatMap (kvMergeActions td), by simp [hab]⟩
  · intro hp
    cases hfp : fpPresent (collectPrimitiveFingerprints env td.sourceNode) pd.fingerprint <;>
      simp [primitiveMergeActions, hp, hfp]
  · intro hp
    cases hfp : fpPresent (collectPrimitiveFingerprints env td.sourceNode) pd.fingerprint <;>
      simp [primitiveMergeActions, hp, hfp]

/-- C5 witness: the added primitive `fpC` is absent from `door`'s
current children, so its slice is exactly one `AddChildAction`. -/
theorem C5_primitive_reconciliation_witness :
    exModSrc.type = EntityDiffType.EntityPresentButDifferent ∧
      exModTgt.type = EntityDiffType.EntityPresentButDifferent ∧
      exPdAdd ∈ exModSrc.differingChildren ∧
      (∃ acts, processEntityModification exEnvDoor exModSrc exModTgt = Except.ok acts ∧
        (∃ a b, acts = a ++ primitiveMergeActions
            (collectPrimitiveFingerprints exEnvDoor exModTgt.sourceNode)
            exModTgt.sourceNode exPdAdd ++ b) ∧
        (exPdAdd.type = PrimitiveDiffType.PrimitiveAdded →
          (primitiveMergeActions (collectPrimitiveFingerprints exEnvDoor exModTgt.sourceNode)
              exModTgt.sourceNode exPdAdd =
              [MergeAction.AddChildAction exPdAdd.node exModTgt.sourceNode] ↔
            fpPresent (collectPrimitiveFingerprints exEnvDoor exModTgt.sourceNode)
              exPdAdd.fingerprint = false)) ∧
        (exPdAdd.type = PrimitiveDiffType.PrimitiveRemoved →
          (primitiveMergeActions (collectPrimitiveFingerprints exEnvDoor exModTgt.sourceNode)
              exModTgt.sourceNode exPdAdd =
              [MergeAction.RemoveChildAction
                (fpGet (collectPrimitiveFingerprints exEnvDoor exModTgt.sourceNode)
                  exPdAdd.fingerprint)] ↔
            fpPresent (collectPrimitiveFingerprints exEnvDoor exModTgt.sourceNode)
              exPdAdd.fingerprint = true))) :=
  ⟨by decide, by decide, by decide,
    C5_primitive_reconciliation exEnvDoor exModSrc exModTgt exPdAdd
      (by decide) (by decide) (by decide)⟩

/-- C9 counterexample: a source difference removing `setting_1` with no
target-side difference and no such entity in the target graph aborts
with the assertion text `Assertion failed: entityToRemove`; the message
does not embed the entity name (it is the same for a different name,
and `setting_1` occurs nowhere in it), refuting the claim that the
surfaced error carries the offending entity name. -/
theorem C9_missing_target_entity_counterexample :
    processEntityDifferences exEnvEmpty [exRemovedOrphan] [] =
        Except.error "Assertion failed: entityToRemove" ∧
      processEntityDifferences exEnvEmpty [exRemovedOrphanOther] [] =
        Except.error "Assertion failed: entityToRemove" ∧
      exRemovedOrphan.entityName ≠ exRemovedOrphanOther.entityName ∧
      ¬ ∃ pre post : String,
        "Assertion failed: entityToRemove" = pre ++ exRemovedOrphan.entityName ++ post := by
  refine ⟨by rfl, by rfl, by decide, ?_⟩
  rintro ⟨pre, post, h⟩
  have h2 : ("Assertion failed: entityToRemove").data =
      (pre ++ exRemovedOrphan.entityName ++ post).data := congrArg String.data h
  rw [String.data_append, String.data_append] at h2
  have h3 : (exRemovedOrphan.entityName).data <:+: ("Assertion failed: entityToRemove").data :=
    ⟨pre.data, post.data, by rw [h2]⟩
  exact absurd h3 (by decide)

/-- C9 (amended): for a source difference of kind removed- or
modified-relative-to-base with no same-named target difference, if the
entity name is absent from the target's name→node index, the
reconciliation step aborts via the debug assertion (`Assertion failed:
entityToRemove` resp. `entityToModify`) rather than proceeding with a
missing node — but that assertion text does not carry the entity
name. -/
theorem C9_missing_target_entity_amended (env : MergeEnv)
    (targetDict : List EntityDifference) (targetEntities : List (String × Nat))
    (sd : EntityDifference)
    (hnotd : targetDict.find? (fun t => decide (t.entityName = sd.entityName)) = none)
    (habs : findTargetEntityByName targetEntities sd.entityName = none) :
    (sd.type = EntityDiffType.EntityMissingInSource →
        processOneSource env targetDict targetEntities sd =
          Except.error "Assertion failed: entityToRemove") ∧
      (sd.type = EntityDiffType.EntityPresentButDifferent →
        processOneSource env targetDict targetEntities sd =
          Except.error "Assertion failed: entityToModify") := by
  constructor
  · intro hty
    simp [processOneSource, hnotd, processSourceOnly, hty, habs]
  · intro hty
    simp [processOneSource, hnotd, processSourceOnly, hty, habs]

/-- C9 amended witness: the concrete orphaned removal aborts with the
assertion text. -/
theorem C9_missing_target_entity_amended_witness :
    (([] : List EntityDifference).find?
        (fun t => decide (t.entityName = exRemovedOrphan.entityName)) = none) ∧
      findTargetEntityByName (buildTargetEntities exEnvEmpty.targetEntityRecords)
          exRemovedOrphan.entityName = none ∧
      ((exRemovedOrphan.type = EntityDiffType.EntityMissingInSource →
          processOneSource exEnvEmpty [] (buildTargetEntities exEnvEmpty.targetEntityRecords)
              exRemovedOrphan = Except.error "Assertion failed: entityToRemove") ∧
        (exRemovedOrphan.type = EntityDiffType.EntityPresentButDifferent →
          processOneSource exEnvEmpty [] (buildTargetEntities exEnvEmpty.targetEntityRecords)
              exRemovedOrphan = Except.error "Assertion failed: entityToModify")) :=
  ⟨by decide, by decide,
    C9_missing_target_entity_amended exEnvEmpty []
      (buildTargetEntities exEnvEmpty.targetEntityRecords) exRemovedOrphan
      (by decide) (by decide)⟩

theorem foldl_upsertDiff_of_fresh (L : List EntityDifference) :
    ∀ acc : List EntityDifference,
      (∀ d ∈ L, ∀ e ∈ acc, e.entityName ≠ d.entityName) →
      L.Pairwise (fun a b => a.entityName ≠ b.entityName) →
      L.foldl upsertDiff acc = acc ++ L := by
  induction L with
  | nil => intro acc _ _; simp
  | cons hd tl ih =>
      intro acc hacc hpw
      have hany : acc.any (fun e => decide (e.entityName = hd.entityName)) = false := by
        rw [List.any_eq_false]
        intro e he
        simpa using hacc hd (List.mem_cons_self hd tl) e he
      have hstep : upsertDiff acc hd = acc ++ [hd] := by
        simp [upsertDiff, hany]
      have hpw2 := (List.pairwise_cons.mp hpw).2
      have hhd := (List.pairwise_cons.mp hpw).1
      have hacc2 : ∀ d ∈ tl, ∀ e ∈ acc ++ [hd], e.entityName ≠ d.entityName := by
        intro d hd2 e he
        rcases List.mem_append.mp he with he1 | he2
        · exact hacc d (List.mem_cons_of_mem hd hd2) e he1
        · rcases List.mem_singleton.mp he2 with rfl
          exact hhd d hd2
      calc (hd :: tl).foldl upsertDiff acc = tl.foldl upsertDiff (upsertDiff acc hd) := by
            simp [List.foldl_cons]
        _ = (acc ++ [hd]) ++ tl := by rw [hstep, ih (acc ++ [hd]) hacc2 hpw2]
        _ = acc ++ hd :: tl := by simp

theorem buildDiffDict_eq_self (L : List EntityDifference)
    (hpw : L.Pairwise (fun a b => a.entityName ≠ b.entityName)) :
    buildDiffDict L = L := by
  simpa using foldl_upsertDiff_of_fresh L [] (by intro d _ e he; cases he) hpw

theorem processLoop_ok_flatMap (env : MergeEnv) (targetDict : List EntityDifference)
    (targetEntities : List (String × Nat)) (L : List EntityDifference)
    (f : EntityDifference → List MergeAction)
    (h : ∀ sd ∈ L, processOneSource env targetDict targetEntities sd = Except.ok (f sd)) :
    processLoop env targetDict targetEntities L = Except.ok (L.flatMap f) := by
  induction L with
  | nil => simp [processLoop]
  | cons hd tl ih =>
      have hhd := h hd (List.mem_cons_self hd tl)
      have htl := ih (fun sd hsd => h sd (List.mem_cons_of_mem hd hsd))
      simp [processLoop, hhd, htl]

/-- C8: with the (invariant) one-difference-per-name source list, the
reconciliation pass walks the source differences in exactly the order
of the source comparison result's own sequence; consequently, whenever
each per-entity step succeeds, the emitted action list is the
concatenation of the per-entity action lists in that same discovery
order. -/
theorem C8_discovery_order (env : MergeEnv)
    (sourceDiffs targetDiffs : List EntityDifference)
    (hnames : sourceDiffs.Pairwise (fun a b => a.entityName ≠ b.entityName)) :
    processEntityDifferences env sourceDiffs targetDiffs =
        processLoop env (buildDiffDict targetDiffs)
          (buildTargetEntities env.targetEntityRecords) sourceDiffs ∧
      ∀ f : EntityDifference → List MergeAction,
        (∀ sd ∈ sourceDiffs,
          processOneSource env (buildDiffDict targetDiffs)
            (buildTargetEntities env.targetEntityRecords) sd = Except.ok (f sd)) →
        processEntityDifferences env sourceDiffs targetDiffs =
          Except.ok (sourceDiffs.flatMap f) := by
  constructor
  · simp only [processEntityDifferences]
    rw [buildDiffDict_eq_self sourceDiffs hnames]
  · intro f hf
    simp only [processEntityDifferences]
    rw [buildDiffDict_eq_self sourceDiffs hnames]
    exact processLoop_ok_flatMap env (buildDiffDict targetDiffs)
      (buildTargetEntities env.targetEntityRecords) sourceDiffs f hf

/-- C8 witness: two added entities (`e` then `q`) are reconciled in list
order, emitting their `AddEntityAction`s in that order. -/
theorem C8_discovery_order_witness :
    ([exAddedSrc, exAddedSrc2].Pairwise (fun a b => a.entityName ≠ b.entityName)) ∧
      (processEntityDifferences exEnvEmpty [exAddedSrc, exAddedSrc2] [] =
          processLoop exEnvEmpty (buildDiffDict [])
            (buildTargetEntities exEnvEmpty.targetEntityRecords) [exAddedSrc, exAddedSrc2] ∧
        processEntityDifferences exEnvEmpty [exAddedSrc, exAddedSrc2] [] =
          Except.ok ([exAddedSrc, exAddedSrc2].flatMap
            (fun sd => [MergeAction.AddEntityAction sd.sourceNode exEnvEmpty.targetRoot]))) := by
  have hnames : ([exAddedSrc, exAddedSrc2].Pairwise
      (fun a b => a.entityName ≠ b.entityName)) := by
    simp [exAddedSrc, exAddedSrc2]
  have h := C8_discovery_order exEnvEmpty [exAddedSrc, exAddedSrc2] [] hnames
  refine ⟨hnames, h.1, h.2
    (fun sd => [MergeAction.AddEntityAction sd.sourceNode exEnvEmpty.targetRoot]) ?_⟩
  intro sd hsd
  rcases List.mem_cons.mp hsd with rfl | hsd2
  · rfl
  · rcases List.mem_singleton.mp hsd2 with rfl
    rfl

theorem ieq_refl (a : String) : ieq a a = true := by
  simp [ieq]

theorem countP_flatMap_zero {α β : Type} (p : β → Bool) (f : α → List β) (xs : List α)
    (h : ∀ x ∈ xs, ∀ b ∈ f x, p b = false) : (xs.flatMap f).countP p = 0 := by
  rw [List.countP_eq_zero]
  intro b hb
  obtain ⟨x, hx, hbf⟩ := List.mem_flatMap.mp hb
  simp [h x hx b hbf]

theorem createActionForKeyValueDiff_forKey (d : KeyValueDifference) (n : Nat) (k : String) :
    isKeyValueActionForKey k (createActionForKeyValueDiff d n) = ieq d.key k := by
  cases hd : d.type <;> simp [createActionForKeyValueDiff, isKeyValueActionForKey, hd]

theorem createActionForKeyValueDiff_key_inj (a b : KeyValueDifference) (n : Nat)
    (h : createActionForKeyValueDiff a n = createActionForKeyValueDiff b n) : a.key = b.key := by
  cases ha : a.type <;> cases hb : b.type <;>
    simp [createActionForKeyValueDiff, ha, hb] at h <;> exact h.1

theorem createActionForKeyValueDiff_ne_conflictWrap (d : KeyValueDifference) (n c : Nat)
    (s t : MergeAction) :
    createActionForKeyValueDiff d n ≠ MergeAction.EntityKeyValueConflictResolutionAction c s t := by
  cases hd : d.type <;> simp [createActionForKeyValueDiff, hd]

theorem primitiveMergeActions_shape (tc : List (String × Nat)) (n : Nat)
    (pd : PrimitiveDifference) (a : MergeAction) (ha : a ∈ primitiveMergeActions tc n pd) :
    (∃ x y, a = MergeAction.AddChildAction x y) ∨ ∃ x, a = MergeAction.RemoveChildAction x := by
  cases hpt : pd.type <;>
    cases hfp : fpPresent tc pd.fingerprint <;>
      simp [primitiveMergeActions, hpt, hfp] at ha
  · exact Or.inl ⟨pd.node, n, ha⟩
  · exact Or.inr ⟨fpGet tc pd.fingerprint, ha⟩

theorem kvMergeActions_shape (td : EntityDifference) (x : KeyValueDifference) :
    kvMergeActions td x = [createActionForKeyValueDiff x td.sourceNode] ∨
      kvMergeActions td x = [] ∨
      ∃ tx, kvMergeActions td x =
        [MergeAction.EntityKeyValueConflictResolutionAction td.sourceNode
          (createActionForKeyValueDiff x td.sourceNode)
          (createActionForKeyValueDiff tx td.sourceNode)] := by
  unfold kvMergeActions
  cases hf : FindTargetDiffByKey td.differingKeyValues x.key with
  | none => exact Or.inl rfl
  | some tx =>
      by_cases h1 : kvDiffEquals x tx = true
      · exact Or.inr (Or.inl (by simp [h1]))
      · by_cases h2 : KeyValueDiffHasConflicts x tx = true
        · refine Or.inr (Or.inr ⟨tx, ?_⟩)
          simp [Bool.not_eq_true] at h1
          simp [h1, h2]
        · simp [Bool.not_eq_true] at h1 h2
          exact Or.inl (by simp [h1, h2])

/-- C3: when an entity is modified on both sides and a source key-value
difference conflicts with the same-keyed target difference (found
case-insensitively, not value-equal, `KeyValueDiffHasConflicts` true),
and the source entity carries no other difference on that key, the
emitted actions contain exactly one
`EntityKeyValueConflictResolutionAction` wrapping the source-derived
and target-derived key-value actions against the target entity, and no
unwrapped key-value action on that key at all. -/
theorem C3_kv_conflict_wrapped (env : MergeEnv) (sd td : EntityDifference)
    (skv tkv : KeyValueDifference) (pre post : List KeyValueDifference)
    (hsd : sd.type = EntityDiffType.EntityPresentButDifferent)
    (htd : td.type = EntityDiffType.EntityPresentButDifferent)
    (hsplit : sd.differingKeyValues = pre ++ skv :: post)
    (hpre : ∀ x ∈ pre, ieq x.key skv.key = false)
    (hpost : ∀ x ∈ post, ieq x.key skv.key = false)
    (hfind : FindTargetDiffByKey td.differingKeyValues skv.key = some tkv)
    (hne : kvDiffEquals skv tkv = false)
    (hconf : KeyValueDiffHasConflicts skv tkv = true) :
    ∃ acts, processEntityModification env sd td = Except.ok acts ∧
      acts.countP (fun a => decide (a =
        MergeAction.EntityKeyValueConflictResolutionAction td.sourceNode
          (createActionForKeyValueDiff skv td.sourceNode)
          (createActionForKeyValueDiff tkv td.sourceNode))) = 1 ∧
      acts.countP (isKeyValueActionForKey skv.key) = 0 := by
  have hzero : ∀ x, ieq x.key skv.key = false → ∀ b ∈ kvMergeActions td x,
      (decide (b = MergeAction.EntityKeyValueConflictResolutionAction td.sourceNode
          (createActionForKeyValueDiff skv td.sourceNode)
          (createActionForKeyValueDiff tkv td.sourceNode)) = false ∧
        isKeyValueActionForKey skv.key b = false) := by
    intro x hx b hb
    rcases kvMergeActions_shape td x with hc | hc | ⟨tx, hc⟩
    · rw [hc] at hb
      rcases List.mem_singleton.mp hb with rfl
      refine ⟨decide_eq_false (createActionForKeyValueDiff_ne_conflictWrap x td.sourceNode _ _ _), ?_⟩
      rw [createActionForKeyValueDiff_forKey]
      exact hx
    · rw [hc] at hb
      cases hb
    · rw [hc] at hb
      rcases List.mem_singleton.mp hb with rfl
      constructor
      · apply decide_eq_false
        intro heq
        injection heq with h1 h2 h3
        have hkeq := createActionForKeyValueDiff_key_inj x skv td.sourceNode h2
        rw [hkeq, ieq_refl] at hx
        cases hx
      · simp [isKeyValueActionForKey]
  have hskv : kvMergeActions td skv =
      [MergeAction.EntityKeyValueConflictResolutionAction td.sourceNode
        (createActionForKeyValueDiff skv td.sourceNode)
        (createActionForKeyValueDiff tkv td.sourceNode)] := by
    simp [kvMergeActions, hfind, hne, hconf]
  refine ⟨sd.differingChildren.flatMap
      (primitiveMergeActions (collectPrimitiveFingerprints env td.sourceNode) td.sourceNode) ++
      sd.differingKeyValues.flatMap (kvMergeActions td), ?_, ?_, ?_⟩
  · simp [processEntityModification, hsd, htd]
  · rw [List.countP_append, hsplit, List.flatMap_append, List.flatMap_cons,
      List.countP_append, List.countP_append]
    have hp1 : (sd.differingChildren.flatMap
        (primitiveMergeActions (collectPrimitiveFingerprints env td.sourceNode)
          td.sourceNode)).countP (fun a => decide (a =
            MergeAction.EntityKeyValueConflictResolutionAction td.sourceNode
              (createActionForKeyValueDiff skv td.sourceNode)
              (createActionForKeyValueDiff tkv td.sourceNode))) = 0 := by
      apply countP_flatMap_zero
      intro pd hpd b hb
      rcases primitiveMergeActions_shape _ _ _ _ hb with ⟨x, y, rfl⟩ | ⟨x, rfl⟩ <;> simp
    have hp2 : (pre.flatMap (kvMergeActions td)).countP (fun a => decide (a =
        MergeAction.EntityKeyValueConflictResolutionAction td.sourceNode
          (createActionForKeyValueDiff skv td.sourceNode)
          (createActionForKeyValueDiff tkv td.sourceNode))) = 0 :=
      countP_flatMap_zero _ _ _ (fun x hx b hb => (hzero x (hpre x hx) b hb).1)
    have hp3 : (post.flatMap (kvMergeActions td)).countP (fun a => decide (a =
        MergeAction.EntityKeyValueConflictResolutionAction td.sourceNode
          (createActionForKeyValueDiff skv td.sourceNode)
          (createActionForKeyValueDiff tkv td.sourceNode))) = 0 :=
      countP_flatMap_zero _ _ _ (fun x hx b hb => (hzero x (hpost x hx) b hb).1)
    rw [hp1, hp2, hp3, hskv]
    simp
  · rw [List.countP_append, hsplit, List.flatMap_append, List.flatMap_cons,
      List.countP_append, List.countP_append]
    have hp1 : (sd.differingChildren.flatMap
        (primitiveMergeActions (collectPrimitiveFingerprints env td.sourceNode)
          td.sourceNode)).countP (isKeyValueActionForKey skv.key) = 0 := by
      apply countP_flatMap_zero
      intro pd hpd b hb
      rcases primitiveMergeActions_shape _ _ _ _ hb with ⟨x, y, rfl⟩ | ⟨x, rfl⟩ <;>
        simp [isKeyValueActionForKey]
    have hp2 : (pre.flatMap (kvMergeActions td)).countP (isKeyValueActionForKey skv.key) = 0 :=
      countP_flatMap_zero _ _ _ (fun x hx b hb => (hzero x (hpre x hx) b hb).2)
    have hp3 : (post.flatMap (kvMergeActions td)).countP (isKeyValueActionForKey skv.key) = 0 :=
      countP_flatMap_zero _ _ _ (fun x hx b hb => (hzero x (hpost x hx) b hb).2)
    rw [hp1, hp2, hp3, hskv]
    simp [isKeyValueActionForKey]

/-- C3 witness: the concrete `origin` conflict of the `door` entity is
wrapped exactly once, with no unwrapped `origin` action. -/
theorem C3_kv_conflict_wrapped_witness :
    exConfSrc.type = EntityDiffType.EntityPresentButDifferent ∧
      exConfTgt.type = EntityDiffType.EntityPresentButDifferent ∧
      exConfSrc.differingKeyValues = [] ++ exKvSrc :: [] ∧
      FindTargetDiffByKey exConfTgt.differingKeyValues exKvSrc.key = some exKvTgt ∧
      kvDiffEquals exKvSrc exKvTgt = false ∧
      KeyValueDiffHasConflicts exKvSrc exKvTgt = true ∧
      (∃ acts, processEntityModification exEnvDoor exConfSrc exConfTgt = Except.ok acts ∧
        acts.countP (fun a => decide (a =
          MergeAction.EntityKeyValueConflictResolutionAction exConfTgt.sourceNode
            (createActionForKeyValueDiff exKvSrc exConfTgt.sourceNode)
            (createActionForKeyValueDiff exKvTgt exConfTgt.sourceNode))) = 1 ∧
        acts.countP (isKeyValueActionForKey exKvSrc.key) = 0) :=
  ⟨by decide, by decide, by decide, by decide, by decide, by decide,
    C3_kv_conflict_wrapped exEnvDoor exConfSrc exConfTgt exKvSrc exKvTgt [] []
      (by decide) (by decide) (by decide) (by decide) (by decide)
      (by decide) (by decide) (by decide)⟩

theorem flatMap_nil_of_forall {α β : Type} (f : α → List β) (l : List α)
    (h : ∀ x ∈ l, f x = []) : l.flatMap f = [] := by
  induction l with
  | nil => rfl
  | cons hd tl ih =>
      rw [List.flatMap_cons, h hd (List.mem_cons_self hd tl),
        ih (fun x hx => h x (List.mem_cons_of_mem hd hx))]
      rfl

theorem find_name_self (L : List EntityDifference) (sd : EntityDifference)
    (hpw : L.Pairwise (fun a b => a.entityName ≠ b.entityName)) (hmem : sd ∈ L) :
    L.find? (fun t => decide (t.entityName = sd.entityName)) = some sd := by
  induction L with
  | nil => cases hmem
  | cons hd tl ih =>
      rcases List.mem_cons.mp hmem with rfl | hmem2
      · exact List.find?_cons_of_pos tl (by simp)
      · have hne : hd.entityName ≠ sd.entityName := (List.pairwise_cons.mp hpw).1 sd hmem2
        rw [List.find?_cons_of_neg tl (by simp [hne])]
        exact ih (List.pairwise_cons.mp hpw).2 hmem2

theorem FindTargetDiffByKey_self (kvs : List KeyValueDifference) (skv : KeyValueDifference)
    (hpw : kvs.Pairwise (fun a b => ieq a.key b.key = false)) (hmem : skv ∈ kvs) :
    FindTargetDiffByKey kvs skv.key = some skv := by
  unfold FindTargetDiffByKey
  induction kvs with
  | nil => cases hmem
  | cons hd tl ih =>
      rcases List.mem_cons.mp hmem with rfl | hmem2
      · exact List.find?_cons_of_pos tl (ieq_refl skv.key)
      · have hne : ieq hd.key skv.key = false := (List.pairwise_cons.mp hpw).1 skv hmem2
        rw [List.find?_cons_of_neg tl (by simp [hne])]
        exact ih (List.pairwise_cons.mp hpw).2 hmem2

theorem kvDiffEquals_refl (a : KeyValueDifference) : kvDiffEquals a a = true := by
  cases ha : a.type <;> simp [kvDiffEquals, ieq_refl, ha]

theorem processEntityModification_self (env : MergeEnv) (sd : EntityDifference)
    (hty : sd.type = EntityDiffType.EntityPresentButDifferent)
    (hkeys : sd.differingKeyValues.Pairwise (fun a b => ieq a.key b.key = false))
    (hreflect : ∀ pd ∈ sd.differingChildren,
      (pd.type = PrimitiveDiffType.PrimitiveAdded →
        fpPresent (collectPrimitiveFingerprints env sd.sourceNode) pd.fingerprint = true) ∧
      (pd.type = PrimitiveDiffType.PrimitiveRemoved →
        fpPresent (collectPrimitiveFingerprints env sd.sourceNode) pd.fingerprint = false)) :
    processEntityModification env sd sd = Except.ok [] := by
  have hprim : sd.differingChildren.flatMap
      (primitiveMergeActions (collectPrimitiveFingerprints env sd.sourceNode) sd.sourceNode) =
      [] := by
    apply flatMap_nil_of_forall
    intro pd hpd
    rcases hreflect pd hpd with ⟨hA, hR⟩
    cases hpt : pd.type with
    | PrimitiveAdded => simp [primitiveMergeActions, hpt, hA hpt]
    | PrimitiveRemoved => simp [primitiveMergeActions, hpt, hR hpt]
  have hkv : sd.differingKeyValues.flatMap (kvMergeActions sd) = [] := by
    apply flatMap_nil_of_forall
    intro kv hkv2
    have hf := FindTargetDiffByKey_self sd.differingKeyValues kv hkeys hkv2
    simp [kvMergeActions, hf, kvDiffEquals_refl]
  simp [processEntityModification, hty, hprim, hkv]

/-- C6: merging a comparison result against itself (source and target
difference lists equal element for element) over a target graph that
reflects the target-side changes (every added child fingerprint already
present, every removed one already gone) produces an empty action list
— in particular no conflict-resolution action of either kind. -/
theorem C6_identical_results_empty (env : MergeEnv) (L : List EntityDifference)
    (hnames : L.Pairwise (fun a b => a.entityName ≠ b.entityName))
    (hkeys : ∀ d ∈ L, d.differingKeyValues.Pairwise (fun a b => ieq a.key b.key = false))
    (hreflect : ∀ d ∈ L, d.type = EntityDiffType.EntityPresentButDifferent →
      ∀ pd ∈ d.differingChildren,
        (pd.type = PrimitiveDiffType.PrimitiveAdded →
          fpPresent (collectPrimitiveFingerprints env d.sourceNode) pd.fingerprint = true) ∧
        (pd.type = PrimitiveDiffType.PrimitiveRemoved →
          fpPresent (collectPrimitiveFingerprints env d.sourceNode) pd.fingerprint = false)) :
    processEntityDifferences env L L = Except.ok [] := by
  simp only [processEntityDifferences]
  rw [buildDiffDict_eq_self L hnames]
  have hloop := processLoop_ok_flatMap env L (buildTargetEntities env.targetEntityRecords) L
    (fun _ => []) ?_
  · rw [flatMap_nil_of_forall (fun _ => []) L (fun _ _ => rfl)] at hloop
    exact hloop
  · intro sd hsd
    have hfind := find_name_self L sd hnames hsd
    simp only [processOneSource, hfind]
    cases hty : sd.type with
    | EntityMissingInBase => simp [processBothPresent, hty]
    | EntityMissingInSource => simp [processBothPresent, hty]
    | EntityPresentButDifferent =>
        have := processEntityModification_self env sd hty (hkeys sd hsd)
          (hreflect sd hsd hty)
        simp [processBothPresent, hty, this]

/-- C6 witness: a three-entity comparison result (an add, a removal and
a modification whose child changes are reflected in the target graph)
merged against itself yields the empty action list. -/
theorem C6_identical_results_empty_witness :
    ([exAddedSrc, exRemovedOrphan, exC6Mod].Pairwise
        (fun a b => a.entityName ≠ b.entityName)) ∧
      (∀ d ∈ [exAddedSrc, exRemovedOrphan, exC6Mod],
        d.differingKeyValues.Pairwise (fun a b => ieq a.key b.key = false)) ∧
      (∀ d ∈ [exAddedSrc, exRemovedOrphan, exC6Mod],
        d.type = EntityDiffType.EntityPresentButDifferent →
        ∀ pd ∈ d.differingChildren,
          (pd.type = PrimitiveDiffType.PrimitiveAdded →
            fpPresent (collectPrimitiveFingerprints exEnvDoor d.sourceNode)
              pd.fingerprint = true) ∧
          (pd.type = PrimitiveDiffType.PrimitiveRemoved →
            fpPresent (collectPrimitiveFingerprints exEnvDoor d.sourceNode)
              pd.fingerprint = false)) ∧
      processEntityDifferences exEnvDoor [exAddedSrc, exRemovedOrphan, exC6Mod]
          [exAddedSrc, exRemovedOrphan, exC6Mod] = Except.ok [] :=
  ⟨by decide, by decide, by decide,
    C6_identical_results_empty exEnvDoor [exAddedSrc, exRemovedOrphan, exC6Mod]
      (by decide) (by decide) (by decide)⟩

end ThreeWayMerge
